import Mathlib

/-!
Verification development for the Marketrix MCP server (`src/mcp_server.py`).

The server keeps two module-level Python dicts, `active_connections`
(session id to WebSocket) and `response_queues` (session id to
`asyncio.Queue`), a correlator `send_and_await_ws`, three tool handlers,
a websocket endpoint that registers a connection and pumps inbound text
into the session queue, and a lifespan cleanup loop.

The embedding below models Python dicts as insertion-ordered association
lists, `asyncio.Queue` objects as entries of a heap keyed by an allocation
counter (so that a queue object survives deletion of its dict entry, as a
referenced Python object does), and the cooperative interleaving during
the correlator's wait as an explicit timed trace of server events.
-/

set_option autoImplicit false

namespace Marketrix

/-- Association-list lookup, modelling Python dict indexing (first match wins). -/
def alGet? {α β : Type} [DecidableEq α] : List (α × β) → α → Option β
  | [], _ => none
  | (k', v') :: t, k => if k' = k then some v' else alGet? t k

/-- Association-list update, modelling Python dict assignment: replaces the
existing entry in place, appends at the end when the key is new (Python
dicts preserve insertion order). -/
def alSet {α β : Type} [DecidableEq α] : List (α × β) → α → β → List (α × β)
  | [], k, v => [(k, v)]
  | (k', v') :: t, k, v => if k' = k then (k, v) :: t else (k', v') :: alSet t k v

/-- Association-list deletion, modelling Python `del d[k]`. -/
def alDel {α β : Type} [DecidableEq α] : List (α × β) → α → List (α × β)
  | [], _ => []
  | (k', v') :: t, k => if k' = k then alDel t k else (k', v') :: alDel t k

/-- Python `k in d`. -/
def alHas {α β : Type} [DecidableEq α] (l : List (α × β)) (k : α) : Bool :=
  (alGet? l k).isSome

/-- The key list of an association list, in insertion order. -/
def keys {α β : Type} (l : List (α × β)) : List α :=
  l.map (fun p => p.1)

/-- Effect of `alSet` on the key list alone. -/
def keysIns {α : Type} [DecidableEq α] : List α → α → List α
  | [], k => [k]
  | k' :: t, k => if k' = k then k :: t else k' :: keysIns t k

/-- Effect of `alDel` on the key list alone. -/
def keysRem {α : Type} [DecidableEq α] : List α → α → List α
  | [], _ => []
  | k' :: t, k => if k' = k then keysRem t k else k' :: keysRem t k

/-- JSON values, the structured data carried over the wire (floats are not
used by any message in this system, so numbers are modelled as integers). -/
inductive Json : Type where
  | null : Json
  | bool (b : Bool) : Json
  | num (n : Int) : Json
  | str (s : String) : Json
  | arr (xs : List Json) : Json
  | obj (fields : List (String × Json)) : Json

/-- Python truthiness, as tested by `if response.get("success"):`. -/
def pyTruthy : Json → Bool
  | Json.null => false
  | Json.bool b => b
  | Json.num n => n != 0
  | Json.str s => s != ""
  | Json.arr [] => false
  | Json.arr (_ :: _) => true
  | Json.obj [] => false
  | Json.obj (_ :: _) => true

/-- An inbound wire text, classified by whether `json.loads` accepts it:
`decoded j` stands for a text that parses to the value `j`, `malformed s`
for a text that raises `json.JSONDecodeError`. -/
inductive Msg : Type where
  | decoded (j : Json) : Msg
  | malformed (s : String) : Msg

/-- The result of Python `json.loads` on a wire text. -/
def json_loads : Msg → Option Json
  | Msg.decoded j => some j
  | Msg.malformed _ => none

/-- An item of a response queue: either a wire text put by the websocket
endpoint, or the `None` sentinel put by the lifespan cleanup. -/
abbrev Item := Option Msg

/-- The module-level mutable state of `mcp_server.py`. Queue objects live in
the heap `queues` keyed by an allocation counter, so that a queue object a
suspended waiter holds a reference to survives deletion or replacement of
its `response_queues` entry, exactly as a referenced Python object does.
`sent` records every payload passed to `ws.send_text`, tagged with the
connection it was sent on. -/
structure SState where
  active_connections : List (String × Nat)
  response_queues : List (String × Nat)
  queues : List (Nat × List Item)
  nextQueueId : Nat
  nextConnId : Nat
  sent : List (Nat × Json)

/-- The state at process start: both dicts empty. -/
def initState : SState :=
  { active_connections := []
    response_queues := []
    queues := []
    nextQueueId := 0
    nextConnId := 0
    sent := [] }

/-- Server events that can interleave with a suspended correlator call:
a websocket connects for a session (`websocket_endpoint` lines 138-141),
the endpoint's receive loop gets one inbound text (lines 143-150, with the
`finally` teardown of lines 155-159 when `json.loads` raises), the
endpoint observes a disconnect (lines 151-159), or the process shuts down
(`lifespan` lines 108-118). -/
inductive Event : Type where
  | connect (sid : String) : Event
  | recv (sid : String) (m : Msg) : Event
  | disconnect (sid : String) : Event
  | shutdown : Event

/-- One iteration of the `lifespan` cleanup loop for one session id:
close the websocket, put the `None` sentinel into the session's queue if
one exists, then delete both dict entries. -/
def shutdownStep (st : SState) (sid : String) : SState :=
  let st' :=
    match alGet? st.response_queues sid with
    | some q => { st with queues := alSet st.queues q ((alGet? st.queues q).getD [] ++ [none]) }
    | none => st
  { st' with
    active_connections := alDel st'.active_connections sid
    response_queues := alDel st'.response_queues sid }

/-- The state transition performed by one server event.

`connect`: `websocket_endpoint` accepts, stores the websocket under the
session id and installs a fresh empty queue (lines 138-140), superseding
any previous entries.

`recv`: one iteration of the endpoint's receive loop. The received text is
first passed to `json.loads` for logging (line 146); if that raises, the
`while` loop dies, the exception is caught at line 153 and the `finally`
block deletes both dict entries. Otherwise the raw text is put into the
session's current queue if one exists (lines 149-150), and dropped if not.

`disconnect`: `WebSocketDisconnect` reaches the handler; the `finally`
block deletes both dict entries (lines 155-159). No sentinel is posted.

`shutdown`: the `lifespan` cleanup iterates over a snapshot of the active
session ids, closing each connection, posting the `None` sentinel to its
queue and deleting both entries (lines 109-118). -/
def step (st : SState) : Event → SState
  | Event.connect sid =>
      { st with
        active_connections := alSet st.active_connections sid st.nextConnId
        response_queues := alSet st.response_queues sid st.nextQueueId
        queues := alSet st.queues st.nextQueueId []
        nextQueueId := st.nextQueueId + 1
        nextConnId := st.nextConnId + 1 }
  | Event.recv sid m =>
      match m with
      | Msg.malformed _ =>
          { st with
            active_connections := alDel st.active_connections sid
            response_queues := alDel st.response_queues sid }
      | Msg.decoded _ =>
          match alGet? st.response_queues sid with
          | some q =>
              { st with queues := alSet st.queues q ((alGet? st.queues q).getD [] ++ [some m]) }
          | none => st
  | Event.disconnect sid =>
      { st with
        active_connections := alDel st.active_connections sid
        response_queues := alDel st.response_queues sid }
  | Event.shutdown =>
      (keys st.active_connections).foldl shutdownStep st

/-- Applies a timed trace of events in order, ignoring the timestamps. -/
def applyTrace (st : SState) (trace : List (Nat × Event)) : SState :=
  trace.foldl (fun s te => step s te.2) st

/-- How one call of `send_and_await_ws` terminates, one constructor per
raise/return site of the source:
`ok` is the `return response` at line 38;
`valueError` is the raise at line 25 (no active connection);
`timeoutError` is the raise at line 41 (60-second wait exceeded);
`runtimeError` is the raise at line 44, and carries the queue item whose
handling at line 36 raised (the `None` sentinel, or an unparseable text);
`sendRaise` is an exception escaping `ws.send_text` at line 28, which sits
outside the `try` block and therefore propagates unwrapped. -/
inductive Outcome : Type where
  | ok (j : Json) : Outcome
  | valueError (msg : String) : Outcome
  | timeoutError (msg : String) : Outcome
  | runtimeError (cause : Item) : Outcome
  | sendRaise : Outcome

/-- Result of one `send_and_await_ws` call: its outcome, the module state
when the call returns, and the list of queue items the call passed to
`json.loads` at line 36 (empty when no parsing was attempted). -/
structure ExchResult where
  outcome : Outcome
  state : SState
  parsed : List Item

/-- What happens to a queue item obtained by `queue.get()` at line 34:
`json.loads` is applied to it at line 36. A decoded text returns its value;
an unparseable text raises `json.JSONDecodeError` and the `None` sentinel
raises `TypeError`, both caught at line 42 and re-raised as `RuntimeError`. -/
def resolveItem : Item → Outcome
  | some (Msg.decoded j) => Outcome.ok j
  | some (Msg.malformed s) => Outcome.runtimeError (some (Msg.malformed s))
  | none => Outcome.runtimeError none

/-- The message of the `TimeoutError` raised at line 41. -/
def timeoutMsg : String := "No response from web page within 60 seconds"

/-- If the queue object `q` is non-empty, `queue.get()` at line 34 returns
its front item at once, which line 36 then parses; `none` when the queue
is empty and the wait must suspend. -/
def tryTake (st : SState) (q : Nat) : Option ExchResult :=
  match alGet? st.queues q with
  | some (item :: rest) =>
      some
        { outcome := resolveItem item
          state := { st with queues := alSet st.queues q rest }
          parsed := [item] }
  | _ => none

/-- The suspension of `await asyncio.wait_for(queue.get(), timeout=60.0)`
(line 34) on the queue object `q`, given the timed trace of server events
that occur during the wait. `queue.get()` returns at once when the queue
is non-empty; otherwise events earlier than the 60-second deadline run,
and the queue is re-examined after each; once only events at or past the
deadline remain, the wait times out (and later events are no longer part
of this call). -/
def waitLoop : SState → Nat → List (Nat × Event) → ExchResult
  | st, q, [] =>
      (tryTake st q).getD { outcome := Outcome.timeoutError timeoutMsg, state := st, parsed := [] }
  | st, q, (t, e) :: rest =>
      match tryTake st q with
      | some r => r
      | none =>
          if t < 60 then waitLoop (step st e) q rest
          else { outcome := Outcome.timeoutError timeoutMsg, state := st, parsed := [] }

/-- The correlator, `send_and_await_ws` (lines 23-44). `sendOk` tells
whether `ws.send_text` succeeds (it raises for instance when the socket is
already closed; that exception escapes unwrapped since line 28 is outside
the `try`). `trace` is the timed trace of server events interleaved with
the wait. The function looks up the connection (raising `ValueError` when
absent, before anything is transmitted), sends, creates the session's
queue if missing (lines 30-31), fetches the current queue object (line 32)
and suspends on it. -/
def send_and_await_ws (st : SState) (session_id : String) (message : Json)
    (sendOk : Bool) (trace : List (Nat × Event)) : ExchResult :=
  match alGet? st.active_connections session_id with
  | none =>
      { outcome := Outcome.valueError ("No active connection for session: " ++ session_id)
        state := st
        parsed := [] }
  | some c =>
      if sendOk then
        let st₁ := { st with sent := st.sent ++ [(c, message)] }
        match alGet? st₁.response_queues session_id with
        | some q => waitLoop st₁ q trace
        | none =>
            let q := st₁.nextQueueId
            let st₂ :=
              { st₁ with
                response_queues := alSet st₁.response_queues session_id q
                queues := alSet st₁.queues q []
                nextQueueId := q + 1 }
            waitLoop st₂ q trace
      else { outcome := Outcome.sendRaise, state := st, parsed := [] }

/-- Python `d.get(k)` on a JSON value: `none` models an `AttributeError`
(the value is not a dict), `some Json.null` a missing key (Python `None`),
`some v` a present key. -/
def pyGet? (j : Json) (k : String) : Option Json :=
  match j with
  | Json.obj fields => some ((alGet? fields k).getD Json.null)
  | _ => none

/-- Python `d.get(k, default)` on a JSON value; `none` models an
`AttributeError` as in `pyGet?`. -/
def pyGetD (j : Json) (k : String) (default : Json) : Option Json :=
  match j with
  | Json.obj fields => some ((alGet? fields k).getD default)
  | _ => none

/-- Python `d[k]` on a JSON value: `none` models a raise (`KeyError` for a
missing key, `TypeError`/`KeyError` for a non-dict). -/
def pyIndex? (j : Json) (k : String) : Option Json :=
  match j with
  | Json.obj fields => alGet? fields k
  | _ => none

/-- Python `repr` of a JSON value, as used inside container renderings;
`fuel` bounds the recursion depth (no message in this system nests deeper).
A text brace is written with its escape so it never reads as interpolation. -/
def pyRepr (fuel : Nat) (j : Json) : String :=
  match fuel, j with
  | _, Json.null => "None"
  | _, Json.bool true => "True"
  | _, Json.bool false => "False"
  | _, Json.num n => toString n
  | _, Json.str s => "'" ++ s ++ "'"
  | 0, Json.arr _ => "[...]"
  | 0, Json.obj _ => "\x7b...\x7d"
  | fuel' + 1, Json.arr xs => "[" ++ String.intercalate ", " (xs.map (pyRepr fuel')) ++ "]"
  | fuel' + 1, Json.obj fs =>
      "\x7b" ++
        String.intercalate ", " (fs.map (fun p => "'" ++ p.1 ++ "': " ++ pyRepr fuel' p.2)) ++
      "\x7d"

/-- Python `str` of a JSON value, as interpolated by an f-string. -/
def pyStr (j : Json) : String :=
  match j with
  | Json.str s => s
  | _ => pyRepr 100 j

/-- Python `str(e)` for the exception a failed `send_and_await_ws` call
raises, as interpolated into the tools' error strings. The inner message
for the `RuntimeError` cases mirrors CPython's own wording. -/
def pyExcStr : Outcome → String
  | Outcome.ok _ => ""
  | Outcome.valueError m => m
  | Outcome.timeoutError m => m
  | Outcome.runtimeError none =>
      "WS communication error: the JSON object must be str, bytes or bytearray, not NoneType"
  | Outcome.runtimeError (some _) =>
      "WS communication error: Expecting value: line 1 column 1 (char 0)"
  | Outcome.sendRaise => "WebSocket is not connected. Need to call \"accept\" first."

/-- The tool `take_html_snapshot` (lines 47-64). Builds the snapshot
instruction, exchanges it, and renders the reply: on a truthy `success`
field it reports the length of `html` and a 500-character preview; a falsy
or missing `success` yields the `Failed to capture snapshot` string; any
exception (from the exchange, a non-dict reply, a missing `html` key, or a
reply whose `html` has no length/slice) is caught and stringified by the
`except` at lines 62-64. -/
def take_html_snapshot (st : SState) (url_or_session : String)
    (sendOk : Bool) (trace : List (Nat × Event)) : String × SState :=
  let message := Json.obj [("type", Json.str "snapshot"), ("action", Json.str "capture")]
  let r := send_and_await_ws st url_or_session message sendOk trace
  match r.outcome with
  | Outcome.ok response =>
      match pyGet? response "success" with
      | none =>
          ("Error taking snapshot: 'str' object has no attribute 'get'", r.state)
      | some v =>
          if pyTruthy v then
            match pyIndex? response "html" with
            | none => ("Error taking snapshot: 'html'", r.state)
            | some (Json.str html) =>
                ("HTML Snapshot captured successfully (length: " ++ toString html.length ++
                    " chars). Preview: " ++ String.mk (html.data.take 500) ++ "...",
                  r.state)
            | some (Json.arr xs) =>
                ("HTML Snapshot captured successfully (length: " ++ toString xs.length ++
                    " chars). Preview: " ++ pyRepr 100 (Json.arr (xs.take 500)) ++ "...",
                  r.state)
            | some _ =>
                ("Error taking snapshot: object of type 'NoneType' has no len()", r.state)
          else
            ("Failed to capture snapshot: " ++
                pyStr ((pyGetD response "error" (Json.str "Unknown error")).getD Json.null),
              r.state)
  | o => ("Error taking snapshot: " ++ pyExcStr o, r.state)

/-- The tool `show_confirmation_alert` (lines 66-82). Builds the confirm
instruction, exchanges it, and returns `response.get("confirmed", False)`;
any exception (from the exchange or from `.get` on a non-dict reply) is
caught at lines 80-82 and degraded to `False`. The returned value is the
raw Python value of the `confirmed` field, `False` when absent. -/
def show_confirmation_alert (st : SState) (message : String) (session_id : String)
    (sendOk : Bool) (trace : List (Nat × Event)) : Json × SState :=
  let ws_message := Json.obj [("type", Json.str "confirm"), ("message", Json.str message)]
  let r := send_and_await_ws st session_id ws_message sendOk trace
  match r.outcome with
  | Outcome.ok response =>
      match pyGetD response "confirmed" (Json.bool false) with
      | some v => (v, r.state)
      | none => (Json.bool false, r.state)
  | _ => (Json.bool false, r.state)

/-- Modelled from the spec: the wait of the Correlator contract
`exchange(session_id, outbound_message, timeout = 60s)` of section 4.3,
whose bound is "configurable per call site" — identical to `waitLoop`
except that the deadline is the parameter `timeout` instead of the
source's literal `60.0`. The source file has no such parameter. -/
def waitLoopSpec (timeout : Nat) : SState → Nat → List (Nat × Event) → ExchResult
  | st, q, [] =>
      (tryTake st q).getD { outcome := Outcome.timeoutError timeoutMsg, state := st, parsed := [] }
  | st, q, (t, e) :: rest =>
      match tryTake st q with
      | some r => r
      | none =>
          if t < timeout then waitLoopSpec timeout (step st e) q rest
          else { outcome := Outcome.timeoutError timeoutMsg, state := st, parsed := [] }

/-- Modelled from the spec: `exchange` with the per-call-site `timeout`
parameter of sections 4.3 and 6, otherwise identical to
`send_and_await_ws`. -/
def exchange_spec (timeout : Nat) (st : SState) (session_id : String) (message : Json)
    (sendOk : Bool) (trace : List (Nat × Event)) : ExchResult :=
  match alGet? st.active_connections session_id with
  | none =>
      { outcome := Outcome.valueError ("No active connection for session: " ++ session_id)
        state := st
        parsed := [] }
  | some c =>
      if sendOk then
        let st₁ := { st with sent := st.sent ++ [(c, message)] }
        match alGet? st₁.response_queues session_id with
        | some q => waitLoopSpec timeout st₁ q trace
        | none =>
            let q := st₁.nextQueueId
            let st₂ :=
              { st₁ with
                response_queues := alSet st₁.response_queues session_id q
                queues := alSet st₁.queues q []
                nextQueueId := q + 1 }
            waitLoopSpec timeout st₂ q trace
      else { outcome := Outcome.sendRaise, state := st, parsed := [] }

/-- An action on the module state: either a server event, or one
`send_and_await_ws` call run to completion (with no interleaved events). -/
inductive Action : Type where
  | ev (e : Event) : Action
  | exchange (sid : String) (message : Json) (sendOk : Bool) : Action

/-- The state transition of one action. -/
def actStep (st : SState) : Action → SState
  | Action.ev e => step st e
  | Action.exchange sid message sendOk => (send_and_await_ws st sid message sendOk []).state

/-- Runs a sequence of actions from a state. -/
def runActs (st : SState) (acts : List Action) : SState :=
  acts.foldl actStep st


section AListLemmas

variable {α β : Type} [DecidableEq α]

@[simp] theorem alGet?_nil (k : α) : alGet? ([] : List (α × β)) k = none := rfl

theorem alGet?_alSet_self (l : List (α × β)) (k : α) (v : β) :
    alGet? (alSet l k v) k = some v := by
  induction l with
  | nil => simp [alSet, alGet?]
  | cons p t ih =>
      obtain ⟨k', v'⟩ := p
      by_cases h : k' = k <;> simp [alSet, alGet?, h, ih]

theorem alGet?_alSet_ne (l : List (α × β)) (k k' : α) (v : β) (h : k' ≠ k) :
    alGet? (alSet l k v) k' = alGet? l k' := by
  induction l with
  | nil => simp [alSet, alGet?, Ne.symm h]
  | cons p t ih =>
      obtain ⟨k₀, v₀⟩ := p
      by_cases h₀ : k₀ = k
      · subst h₀
        simp [alSet, alGet?, Ne.symm h]
      · by_cases h₁ : k₀ = k' <;> simp [alSet, alGet?, h₀, h₁, h, ih]

theorem alGet?_alDel_self (l : List (α × β)) (k : α) :
    alGet? (alDel l k) k = none := by
  induction l with
  | nil => simp [alDel]
  | cons p t ih =>
      obtain ⟨k₀, v₀⟩ := p
      by_cases h₀ : k₀ = k <;> simp [alDel, alGet?, h₀, ih]

theorem alGet?_alDel_ne (l : List (α × β)) (k k' : α) (h : k' ≠ k) :
    alGet? (alDel l k) k' = alGet? l k' := by
  induction l with
  | nil => simp [alDel]
  | cons p t ih =>
      obtain ⟨k₀, v₀⟩ := p
      by_cases h₀ : k₀ = k
      · subst h₀
        simp [alDel, alGet?, Ne.symm h, ih]
      · by_cases h₁ : k₀ = k' <;> simp [alDel, alGet?, h₀, h₁, h, ih]

theorem keys_alSet (l : List (α × β)) (k : α) (v : β) :
    keys (alSet l k v) = keysIns (keys l) k := by
  induction l with
  | nil => rfl
  | cons p t ih =>
      obtain ⟨k₀, v₀⟩ := p
      by_cases h₀ : k₀ = k
      · simp [alSet, keys, keysIns, h₀]
      · simp only [alSet, keys, keysIns, h₀, if_false, List.map_cons, ite_false]
        simpa [keys] using ih

theorem keys_alDel (l : List (α × β)) (k : α) :
    keys (alDel l k) = keysRem (keys l) k := by
  induction l with
  | nil => rfl
  | cons p t ih =>
      obtain ⟨k₀, v₀⟩ := p
      by_cases h₀ : k₀ = k
      · simp [alDel, keys, keysRem, h₀]
        simpa [keys] using ih
      · simp only [alDel, keys, keysRem, h₀, List.map_cons, ite_false]
        simpa [keys] using ih

theorem alGet?_isSome_iff_mem_keys (l : List (α × β)) (k : α) :
    (alGet? l k).isSome = true ↔ k ∈ keys l := by
  induction l with
  | nil => simp [alGet?, keys]
  | cons p t ih =>
      obtain ⟨k₀, v₀⟩ := p
      by_cases h₀ : k₀ = k <;> simp [alGet?, keys, h₀, ih]
      exact fun h => (h₀ h.symm).elim

theorem alHas_eq_of_keys_eq {β' : Type} (l₁ : List (α × β)) (l₂ : List (α × β'))
    (h : keys l₁ = keys l₂) (k : α) : alHas l₁ k = alHas l₂ k := by
  unfold alHas
  by_cases h₁ : (alGet? l₁ k).isSome = true
  · have hm : k ∈ keys l₂ := h ▸ (alGet?_isSome_iff_mem_keys l₁ k).mp h₁
    have h₂ : (alGet? l₂ k).isSome = true := (alGet?_isSome_iff_mem_keys l₂ k).mpr hm
    rw [h₁, h₂]
  · have hm : k ∉ keys l₂ := fun hh =>
      h₁ ((alGet?_isSome_iff_mem_keys l₁ k).mpr (h ▸ hh))
    have h₂ : ¬ (alGet? l₂ k).isSome = true := fun hh =>
      hm ((alGet?_isSome_iff_mem_keys l₂ k).mp hh)
    simp [Bool.eq_false_iff.mpr h₁, Bool.eq_false_iff.mpr h₂]

end AListLemmas

/-- Frame property of one `send_and_await_ws` call run with no interleaved
events: the connection registry is never touched; the queue dict is at
most extended with a fresh empty queue for the session when it had none
(and then only because a connection was found); the queue heap change is
at most that fresh empty queue or the consumption of the front item of
the session's queue. -/
theorem send_frame (st : SState) (sid : String) (message : Json) (sendOk : Bool) :
    ((send_and_await_ws st sid message sendOk []).state.active_connections =
        st.active_connections) ∧
    ((send_and_await_ws st sid message sendOk []).state.response_queues =
        st.response_queues ∨
      ((alGet? st.active_connections sid).isSome ∧
        alGet? st.response_queues sid = none ∧
        (send_and_await_ws st sid message sendOk []).state.response_queues =
          alSet st.response_queues sid st.nextQueueId)) ∧
    ((send_and_await_ws st sid message sendOk []).state.queues = st.queues ∨
      (alGet? st.response_queues sid = none ∧
        (send_and_await_ws st sid message sendOk []).state.queues =
          alSet st.queues st.nextQueueId []) ∨
      (∃ q item rest,
        alGet? st.response_queues sid = some q ∧
        alGet? st.queues q = some (item :: rest) ∧
        (send_and_await_ws st sid message sendOk []).state.queues =
          alSet st.queues q rest)) ∧
    ((send_and_await_ws st sid message sendOk []).state.nextQueueId = st.nextQueueId ∨
      (alGet? st.response_queues sid = none ∧
        (send_and_await_ws st sid message sendOk []).state.nextQueueId =
          st.nextQueueId + 1)) := by
  cases hc : alGet? st.active_connections sid with
  | none => simp [send_and_await_ws, hc]
  | some c =>
      cases sendOk with
      | false => simp [send_and_await_ws, hc]
      | true =>
          cases hrq : alGet? st.response_queues sid with
          | some q =>
              cases hq : alGet? st.queues q with
              | none =>
                  simp [send_and_await_ws, hc, hrq, waitLoop, tryTake, hq]
              | some items =>
                  cases items with
                  | nil => simp [send_and_await_ws, hc, hrq, waitLoop, tryTake, hq]
                  | cons item rest =>
                      refine ⟨?_, ?_, Or.inr (Or.inr ⟨q, item, rest, rfl, hq, ?_⟩), ?_⟩ <;>
                        simp [send_and_await_ws, hc, hrq, waitLoop, tryTake, hq]
          | none =>
              refine ⟨?_, ?_, ?_, ?_⟩ <;>
                simp [send_and_await_ws, hc, hrq, waitLoop, tryTake, alGet?_alSet_self]

/-- Claim C5: for every session identifier that was never registered in the
connection registry, an exchange call for that identifier fails immediately
with a SessionNotFound failure (the `ValueError` of line 25) and transmits
no outbound message: the whole module state, the `sent` log included, is
returned untouched, and nothing is parsed. -/
theorem claim_C5 (st : SState) (sid : String) (message : Json) (sendOk : Bool)
    (trace : List (Nat × Event)) (h : alGet? st.active_connections sid = none) :
    send_and_await_ws st sid message sendOk trace =
      { outcome := Outcome.valueError ("No active connection for session: " ++ sid)
        state := st
        parsed := [] } := by
  simp [send_and_await_ws, h]

/-- Witness for C5 at the never-registered session `"s2"` on the initial
state. -/
theorem claim_C5_witness :
    send_and_await_ws initState "s2"
        (Json.obj [("type", Json.str "confirm"), ("message", Json.str "Proceed?")]) true [] =
      { outcome := Outcome.valueError "No active connection for session: s2"
        state := initState
        parsed := [] } :=
  claim_C5 initState "s2"
    (Json.obj [("type", Json.str "confirm"), ("message", Json.str "Proceed?")]) true [] rfl

/-- Claim C6 as stated is false: on the reply
`obj [success true, html "<p>hi</p>"]` the snapshot tool reports the
length of `"<p>hi</p>"`, which is 9, so the result is not the string that
reports length 11. -/
theorem claim_C6_counterexample :
    (take_html_snapshot (step initState (Event.connect "s1")) "s1" true
        [(1, Event.recv "s1"
              (Msg.decoded (Json.obj
                [("success", Json.bool true), ("html", Json.str "<p>hi</p>")])))]).1 ≠
      "HTML Snapshot captured successfully (length: 11 chars). Preview: <p>hi</p>..." := by
  decide

/-- Claim C6 amended: when session `"s1"` is connected, `take_html_snapshot`
is called and the remote posts the reply with `success = true` and
`html = "<p>hi</p>"`, the result is the preview string that contains
`"hi"` and reports the full content's length as 9 (not 11). -/
theorem claim_C6 :
    (take_html_snapshot (step initState (Event.connect "s1")) "s1" true
        [(1, Event.recv "s1"
              (Msg.decoded (Json.obj
                [("success", Json.bool true), ("html", Json.str "<p>hi</p>")])))]).1 =
      "HTML Snapshot captured successfully (length: 9 chars). Preview: <p>hi</p>..." := by
  decide

/-- Claim C2 as stated is false: tearing the session down by a connection
disconnect while a call is suspended on its mailbox does not resolve the
call to a distinct SessionClosed failure — the `finally` block of
`websocket_endpoint` deletes the dict entries without posting anything to
the queue, so the suspended call resolves through the 60-second timeout,
i.e. with the ReplyTimeout failure of line 41. -/
theorem claim_C2_counterexample :
    (send_and_await_ws (step initState (Event.connect "s1")) "s1"
        (Json.obj [("type", Json.str "prompt"), ("question", Json.str "q")]) true
        [(5, Event.disconnect "s1")]).outcome =
      Outcome.timeoutError "No response from web page within 60 seconds" := rfl

/-- Claim C2 amended: a suspended exchange call never hangs past the
60-second bound, but no SessionClosed failure exists. (a) A connection
disconnect during the wait posts no wake-up: the call resolves with the
ReplyTimeout failure once the 60-second bound elapses. (b) A process
shutdown posts the `None` sentinel, which wakes the call promptly with the
generic WS-communication RuntimeError (line 44) caused by the sentinel. -/
theorem claim_C2 :
    (∀ (st : SState) (sid : String) (c q : Nat) (message : Json) (t : Nat),
        alGet? st.active_connections sid = some c →
        alGet? st.response_queues sid = some q →
        alGet? st.queues q = some [] →
        t < 60 →
        (send_and_await_ws st sid message true [(t, Event.disconnect sid)]).outcome =
          Outcome.timeoutError timeoutMsg) ∧
    (∀ (st : SState) (sid : String) (c q : Nat) (message : Json) (t : Nat),
        st.active_connections = [(sid, c)] →
        alGet? st.response_queues sid = some q →
        alGet? st.queues q = some [] →
        t < 60 →
        (send_and_await_ws st sid message true [(t, Event.shutdown)]).outcome =
          Outcome.runtimeError none) := by
  constructor
  · intro st sid c q message t h₁ h₂ h₃ ht
    simp [send_and_await_ws, h₁, h₂, waitLoop, tryTake, h₃, ht, step]
  · intro st sid c q message t h₁ h₂ h₃ ht
    simp [send_and_await_ws, h₁, h₂, waitLoop, tryTake, h₃, ht, step, keys,
      shutdownStep, alGet?, alGet?_alSet_self, resolveItem]

/-- Witness for the amended C2 on the concrete connected session `"s1"`,
for both the disconnect and the shutdown teardown. -/
theorem claim_C2_witness :
    (send_and_await_ws (step initState (Event.connect "s1")) "s1"
        (Json.obj [("type", Json.str "prompt"), ("question", Json.str "q")]) true
        [(5, Event.disconnect "s1")]).outcome = Outcome.timeoutError timeoutMsg ∧
    (send_and_await_ws (step initState (Event.connect "s1")) "s1"
        (Json.obj [("type", Json.str "prompt"), ("question", Json.str "q")]) true
        [(5, Event.shutdown)]).outcome = Outcome.runtimeError none :=
  ⟨claim_C2.1 (step initState (Event.connect "s1")) "s1" 0 0
      (Json.obj [("type", Json.str "prompt"), ("question", Json.str "q")]) 5
      rfl rfl rfl (by decide),
   claim_C2.2 (step initState (Event.connect "s1")) "s1" 0 0
      (Json.obj [("type", Json.str "prompt"), ("question", Json.str "q")]) 5
      rfl rfl rfl (by decide)⟩

/-- Claim C3 is right and the code is wrong: the endpoint's own comment
says the raw text is put into the queue "for parsing in tool", but line
146 already calls `json.loads` on every inbound text to log it, so an
unparseable text raises there, the receive loop dies and the `finally`
block tears the session down. Evaluated at the failing input (session
`"s1"` connected, a call waiting, inbound text `"not valid json"` at
t = 5): the waiting call times out with ReplyTimeout instead of failing
with the MalformedReply RuntimeError, and the session's registry and
mailbox entries are gone, i.e. the connection did not survive. -/
theorem claim_C3 :
    (send_and_await_ws (step initState (Event.connect "s1")) "s1"
        (Json.obj [("type", Json.str "snapshot"), ("action", Json.str "capture")]) true
        [(5, Event.recv "s1" (Msg.malformed "not valid json"))]).outcome =
        Outcome.timeoutError timeoutMsg ∧
    (send_and_await_ws (step initState (Event.connect "s1")) "s1"
        (Json.obj [("type", Json.str "snapshot"), ("action", Json.str "capture")]) true
        [(5, Event.recv "s1" (Msg.malformed "not valid json"))]).state.active_connections =
        [] ∧
    (send_and_await_ws (step initState (Event.connect "s1")) "s1"
        (Json.obj [("type", Json.str "snapshot"), ("action", Json.str "capture")]) true
        [(5, Event.recv "s1" (Msg.malformed "not valid json"))]).state.response_queues =
        [] :=
  ⟨rfl, rfl, rfl⟩

/-- Claim C10: for every outcome of an exchange call run in isolation, the
connection registry `active_connections` is left unchanged; the call
mutates at most the session's mailbox: it may create it empty when absent
(which only happens when a connection was found) and consume at most the
front item of it (the queue-id counter advances exactly when the fresh
mailbox is created). -/
theorem claim_C10 (st : SState) (sid : String) (message : Json) (sendOk : Bool) :
    ((send_and_await_ws st sid message sendOk []).state.active_connections =
        st.active_connections) ∧
    ((send_and_await_ws st sid message sendOk []).state.response_queues =
        st.response_queues ∨
      ((alGet? st.active_connections sid).isSome ∧
        alGet? st.response_queues sid = none ∧
        (send_and_await_ws st sid message sendOk []).state.response_queues =
          alSet st.response_queues sid st.nextQueueId)) ∧
    ((send_and_await_ws st sid message sendOk []).state.queues = st.queues ∨
      (alGet? st.response_queues sid = none ∧
        (send_and_await_ws st sid message sendOk []).state.queues =
          alSet st.queues st.nextQueueId []) ∨
      (∃ q item rest,
        alGet? st.response_queues sid = some q ∧
        alGet? st.queues q = some (item :: rest) ∧
        (send_and_await_ws st sid message sendOk []).state.queues =
          alSet st.queues q rest)) ∧
    ((send_and_await_ws st sid message sendOk []).state.nextQueueId = st.nextQueueId ∨
      (alGet? st.response_queues sid = none ∧
        (send_and_await_ws st sid message sendOk []).state.nextQueueId =
          st.nextQueueId + 1)) :=
  send_frame st sid message sendOk

/-- Claim C1: on a session with a registered live connection and an empty
mailbox, when exactly one well-formed reply arrives (before the deadline)
after the exchange call is issued, the call returns the JSON-decoded
reply, and the session's mailbox is empty afterward. -/
theorem claim_C1 (st : SState) (sid : String) (c q : Nat) (message r : Json) (t : Nat)
    (h₁ : alGet? st.active_connections sid = some c)
    (h₂ : alGet? st.response_queues sid = some q)
    (h₃ : alGet? st.queues q = some [])
    (ht : t < 60) :
    (send_and_await_ws st sid message true
        [(t, Event.recv sid (Msg.decoded r))]).outcome = Outcome.ok r ∧
    alGet? (send_and_await_ws st sid message true
        [(t, Event.recv sid (Msg.decoded r))]).state.queues q = some [] := by
  constructor <;>
    simp [send_and_await_ws, h₁, h₂, waitLoop, tryTake, h₃, ht, step,
      alGet?_alSet_self, resolveItem]

/-- Witness for C1: session `"s1"` connects, an exchange is issued, and the
reply `obj [confirmed true]` is posted 1 second later; the call returns
the decoded reply and the mailbox is empty afterward. -/
theorem claim_C1_witness :
    (send_and_await_ws (step initState (Event.connect "s1")) "s1"
        (Json.obj [("type", Json.str "confirm"), ("message", Json.str "Proceed?")]) true
        [(1, Event.recv "s1" (Msg.decoded (Json.obj [("confirmed", Json.bool true)])))]).outcome =
      Outcome.ok (Json.obj [("confirmed", Json.bool true)]) ∧
    alGet? (send_and_await_ws (step initState (Event.connect "s1")) "s1"
        (Json.obj [("type", Json.str "confirm"), ("message", Json.str "Proceed?")]) true
        [(1, Event.recv "s1"
              (Msg.decoded (Json.obj [("confirmed", Json.bool true)])))]).state.queues 0 =
      some [] :=
  claim_C1 (step initState (Event.connect "s1")) "s1" 0 0
    (Json.obj [("type", Json.str "confirm"), ("message", Json.str "Proceed?")])
    (Json.obj [("confirmed", Json.bool true)]) 1 rfl rfl rfl (by decide)

/-- Claim C4 as stated is false in its parenthetical: the timeout is the
literal `60.0` inside `send_and_await_ws`, not configurable per call site.
A reply posted 30 seconds in is returned by the code, where an exchange
configured (as the spec's contract allows) with a 10-second bound would
have timed out; the code's behavior coincides with the spec-modelled
exchange only at the 60-second instance. -/
theorem claim_C4_counterexample :
    (send_and_await_ws (step initState (Event.connect "s1")) "s1"
        (Json.obj [("type", Json.str "prompt"), ("question", Json.str "late")]) true
        [(30, Event.recv "s1" (Msg.decoded (Json.bool true)))]).outcome =
      Outcome.ok (Json.bool true) ∧
    (exchange_spec 10 (step initState (Event.connect "s1")) "s1"
        (Json.obj [("type", Json.str "prompt"), ("question", Json.str "late")]) true
        [(30, Event.recv "s1" (Msg.decoded (Json.bool true)))]).outcome =
      Outcome.timeoutError timeoutMsg ∧
    (exchange_spec 60 (step initState (Event.connect "s1")) "s1"
        (Json.obj [("type", Json.str "prompt"), ("question", Json.str "late")]) true
        [(30, Event.recv "s1" (Msg.decoded (Json.bool true)))]).outcome =
      Outcome.ok (Json.bool true) :=
  ⟨rfl, rfl, rfl⟩

/-- Claim C4 amended: for every session with a registered connection, if no
reply is posted to the session's mailbox within the fixed 60-second
timeout (nothing at all happens before the deadline), the exchange call
fails with the ReplyTimeout failure of line 41 and no parsing of any
payload is attempted. -/
theorem claim_C4 (st : SState) (sid : String) (c q : Nat) (message : Json)
    (trace : List (Nat × Event))
    (h₁ : alGet? st.active_connections sid = some c)
    (h₂ : alGet? st.response_queues sid = some q)
    (h₃ : alGet? st.queues q = some [])
    (htr : ∀ te ∈ trace, 60 ≤ te.1) :
    (send_and_await_ws st sid message true trace).outcome = Outcome.timeoutError timeoutMsg ∧
    (send_and_await_ws st sid message true trace).parsed = [] := by
  cases trace with
  | nil => constructor <;> simp [send_and_await_ws, h₁, h₂, waitLoop, tryTake, h₃]
  | cons te rest =>
      obtain ⟨t, e⟩ := te
      have ht : ¬ t < 60 := by
        have := htr (t, e) (List.mem_cons_self _ _)
        omega
      constructor <;> simp [send_and_await_ws, h₁, h₂, waitLoop, tryTake, h₃, ht]

/-- Witness for the amended C4: session `"s3"` connects, an exchange is
issued and the remote never replies within the window (its reply arrives
only at the deadline); the call times out without parsing anything. -/
theorem claim_C4_witness :
    (send_and_await_ws (step initState (Event.connect "s3")) "s3"
        (Json.obj [("type", Json.str "prompt"), ("question", Json.str "q")]) true
        [(60, Event.recv "s3" (Msg.decoded (Json.str "late")))]).outcome =
      Outcome.timeoutError timeoutMsg ∧
    (send_and_await_ws (step initState (Event.connect "s3")) "s3"
        (Json.obj [("type", Json.str "prompt"), ("question", Json.str "q")]) true
        [(60, Event.recv "s3" (Msg.decoded (Json.str "late")))]).parsed = [] :=
  claim_C4 (step initState (Event.connect "s3")) "s3" 0 0
    (Json.obj [("type", Json.str "prompt"), ("question", Json.str "q")])
    [(60, Event.recv "s3" (Msg.decoded (Json.str "late")))] rfl rfl rfl
    (by intro te hte; simp at hte; simp [hte])

/-- Claim C7: the confirmation tool returns the Python value of the
`confirmed` field only when the exchange succeeded with a dict reply that
carries that field; in every other situation — no connection ever
registered (in particular), timeout, malformed or sentinel reply, send
failure, non-dict reply, or a reply missing the `confirmed` field — it
returns `False` rather than raising. -/
theorem claim_C7 :
    (∀ (st : SState) (m sid : String) (sendOk : Bool) (trace : List (Nat × Event)),
        (show_confirmation_alert st m sid sendOk trace).1 = Json.bool false ∨
        ∃ fields v,
          (send_and_await_ws st sid
              (Json.obj [("type", Json.str "confirm"), ("message", Json.str m)])
              sendOk trace).outcome = Outcome.ok (Json.obj fields) ∧
          alGet? fields "confirmed" = some v ∧
          (show_confirmation_alert st m sid sendOk trace).1 = v) ∧
    (∀ (st : SState) (m sid : String) (sendOk : Bool) (trace : List (Nat × Event)),
        alGet? st.active_connections sid = none →
        (show_confirmation_alert st m sid sendOk trace).1 = Json.bool false) := by
  constructor
  · intro st m sid sendOk trace
    cases hr : (send_and_await_ws st sid
        (Json.obj [("type", Json.str "confirm"), ("message", Json.str m)])
        sendOk trace).outcome with
    | ok response =>
        cases response with
        | obj fields =>
            cases hv : alGet? fields "confirmed" with
            | none => exact Or.inl (by simp [show_confirmation_alert, hr, pyGetD, hv])
            | some v =>
                exact Or.inr ⟨fields, v, rfl, hv,
                  by simp [show_confirmation_alert, hr, pyGetD, hv]⟩
        | null => exact Or.inl (by simp [show_confirmation_alert, hr, pyGetD])
        | bool b => exact Or.inl (by simp [show_confirmation_alert, hr, pyGetD])
        | num n => exact Or.inl (by simp [show_confirmation_alert, hr, pyGetD])
        | str s => exact Or.inl (by simp [show_confirmation_alert, hr, pyGetD])
        | arr xs => exact Or.inl (by simp [show_confirmation_alert, hr, pyGetD])
    | valueError msg => exact Or.inl (by simp [show_confirmation_alert, hr])
    | timeoutError msg => exact Or.inl (by simp [show_confirmation_alert, hr])
    | runtimeError cause => exact Or.inl (by simp [show_confirmation_alert, hr])
    | sendRaise => exact Or.inl (by simp [show_confirmation_alert, hr])
  · intro st m sid sendOk trace h
    simp [show_confirmation_alert, send_and_await_ws, h]

/-- Witness for C7 at the spec's scenario: ask-confirmation with message
`"Proceed?"` on session `"s2"` with no connection ever registered yields
`False`. -/
theorem claim_C7_witness :
    (show_confirmation_alert initState "Proceed?" "s2" true []).1 = Json.bool false :=
  claim_C7.2 initState "Proceed?" "s2" true [] rfl

/-- One iteration of the shutdown loop keeps the key lists of the two
dicts equal: it deletes the session from both. -/
theorem keysEq_shutdownStep (st : SState) (sid : String)
    (h : keys st.active_connections = keys st.response_queues) :
    keys (shutdownStep st sid).active_connections =
      keys (shutdownStep st sid).response_queues := by
  unfold shutdownStep
  cases hq : alGet? st.response_queues sid <;> simp [keys_alDel, h]

/-- The whole shutdown loop keeps the key lists of the two dicts equal. -/
theorem keysEq_shutdownFold (l : List String) (st : SState)
    (h : keys st.active_connections = keys st.response_queues) :
    keys (l.foldl shutdownStep st).active_connections =
      keys (l.foldl shutdownStep st).response_queues := by
  induction l generalizing st with
  | nil => simpa using h
  | cons x xs ih => exact ih (shutdownStep st x) (keysEq_shutdownStep st x h)

/-- Every server event keeps the key lists of the two dicts equal:
`connect` writes both under the session id, the teardown paths delete the
session from both, and a successfully received text only touches queue
contents. -/
theorem keysEq_step (st : SState) (e : Event)
    (h : keys st.active_connections = keys st.response_queues) :
    keys (step st e).active_connections = keys (step st e).response_queues := by
  cases e with
  | connect sid => simp [step, keys_alSet, h]
  | recv sid m =>
      cases m with
      | malformed s => simp [step, keys_alDel, h]
      | decoded j => cases hq : alGet? st.response_queues sid <;> simp [step, hq, h]
  | disconnect sid => simp [step, keys_alDel, h]
  | shutdown => simpa only [step] using keysEq_shutdownFold (keys st.active_connections) st h

/-- An exchange call keeps the key lists of the two dicts equal: its only
key-level mutation would be creating the session's queue when absent, and
that requires a registered connection, which under the invariant implies
the queue already exists. -/
theorem keysEq_exchange (st : SState) (sid : String) (message : Json) (sendOk : Bool)
    (h : keys st.active_connections = keys st.response_queues) :
    keys (send_and_await_ws st sid message sendOk []).state.active_connections =
      keys (send_and_await_ws st sid message sendOk []).state.response_queues := by
  obtain ⟨ha, hrq, -, -⟩ := send_frame st sid message sendOk
  rcases hrq with hrq | ⟨hsome, hnone, -⟩
  · rw [ha, hrq, h]
  · exfalso
    have hmem := (alGet?_isSome_iff_mem_keys st.active_connections sid).mp hsome
    rw [h] at hmem
    have h2 := (alGet?_isSome_iff_mem_keys st.response_queues sid).mpr hmem
    rw [hnone] at h2
    simp at h2

/-- Every action keeps the key lists of the two dicts equal. -/
theorem keysEq_actStep (st : SState) (a : Action)
    (h : keys st.active_connections = keys st.response_queues) :
    keys (actStep st a).active_connections = keys (actStep st a).response_queues := by
  cases a with
  | ev e => exact keysEq_step st e h
  | exchange sid message sendOk => exact keysEq_exchange st sid message sendOk h

/-- Claim C8: along every sequence of connect, exchange, disconnect and
shutdown events from a state where the registry and the queue dict hold
the same sessions (as they do at process start), every session identifier
is present in the connection registry exactly when it is present in the
queue dict: the registry entry and the mailbox are created together and
removed together. -/
theorem claim_C8 (st : SState) (acts : List Action) (sid : String)
    (h : keys st.active_connections = keys st.response_queues) :
    alHas (runActs st acts).active_connections sid =
      alHas (runActs st acts).response_queues sid := by
  have hk : keys (runActs st acts).active_connections =
      keys (runActs st acts).response_queues := by
    unfold runActs
    induction acts generalizing st with
    | nil => simpa using h
    | cons a rest ih => exact ih (actStep st a) (keysEq_actStep st a h)
  exact alHas_eq_of_keys_eq _ _ hk sid

/-- Witness for C8 on a run from the initial state exercising connect,
reconnect, exchange, valid and malformed receive, disconnect and
shutdown. -/
theorem claim_C8_witness :
    alHas (runActs initState
        [Action.ev (Event.connect "s1"), Action.ev (Event.connect "s2"),
         Action.exchange "s1"
           (Json.obj [("type", Json.str "snapshot"), ("action", Json.str "capture")]) true,
         Action.ev (Event.recv "s1" (Msg.decoded (Json.bool true))),
         Action.ev (Event.recv "s2" (Msg.malformed "oops")),
         Action.ev (Event.disconnect "s1"),
         Action.ev (Event.connect "s3"),
         Action.exchange "s3"
           (Json.obj [("type", Json.str "confirm"), ("message", Json.str "ok?")]) true,
         Action.ev Event.shutdown]).active_connections "s1" =
      alHas (runActs initState
        [Action.ev (Event.connect "s1"), Action.ev (Event.connect "s2"),
         Action.exchange "s1"
           (Json.obj [("type", Json.str "snapshot"), ("action", Json.str "capture")]) true,
         Action.ev (Event.recv "s1" (Msg.decoded (Json.bool true))),
         Action.ev (Event.recv "s2" (Msg.malformed "oops")),
         Action.ev (Event.disconnect "s1"),
         Action.ev (Event.connect "s3"),
         Action.exchange "s3"
           (Json.obj [("type", Json.str "confirm"), ("message", Json.str "ok?")]) true,
         Action.ev Event.shutdown]).response_queues "s1" :=
  claim_C8 initState
    [Action.ev (Event.connect "s1"), Action.ev (Event.connect "s2"),
     Action.exchange "s1"
       (Json.obj [("type", Json.str "snapshot"), ("action", Json.str "capture")]) true,
     Action.ev (Event.recv "s1" (Msg.decoded (Json.bool true))),
     Action.ev (Event.recv "s2" (Msg.malformed "oops")),
     Action.ev (Event.disconnect "s1"),
     Action.ev (Event.connect "s3"),
     Action.exchange "s3"
       (Json.obj [("type", Json.str "confirm"), ("message", Json.str "ok?")]) true,
     Action.ev Event.shutdown] "s1" rfl

/-- Deleting any entry cannot make a value reachable that was not before. -/
theorem alDel_preserves_notval {α β : Type} [DecidableEq α] (l : List (α × β)) (k : α) (v : β)
    (h : ∀ s, alGet? l s ≠ some v) : ∀ s, alGet? (alDel l k) s ≠ some v := by
  intro s
  by_cases hs : s = k
  · subst hs
    rw [alGet?_alDel_self]
    simp
  · rw [alGet?_alDel_ne l k s hs]
    exact h s

/-- One iteration of the shutdown loop keeps a queue id `q` that no
session maps to unmapped, leaves its contents alone (the sentinel goes to
a mapped queue) and does not advance the allocation counter. -/
theorem qfree_shutdownStep (st : SState) (q : Nat) (sid : String)
    (h₁ : ∀ s, alGet? st.response_queues s ≠ some q) :
    (∀ s, alGet? (shutdownStep st sid).response_queues s ≠ some q) ∧
    alGet? (shutdownStep st sid).queues q = alGet? st.queues q ∧
    (shutdownStep st sid).nextQueueId = st.nextQueueId := by
  unfold shutdownStep
  cases hq : alGet? st.response_queues sid with
  | none => exact ⟨alDel_preserves_notval _ _ _ h₁, rfl, rfl⟩
  | some q'' =>
      have hne : q ≠ q'' := fun hh => h₁ sid (hh ▸ hq)
      exact ⟨alDel_preserves_notval _ _ _ h₁, alGet?_alSet_ne _ _ _ _ hne, rfl⟩

/-- The whole shutdown loop keeps an unmapped queue id unmapped and
untouched. -/
theorem qfree_shutdownFold (l : List String) (st : SState) (q : Nat)
    (h₁ : ∀ s, alGet? st.response_queues s ≠ some q) :
    (∀ s, alGet? (l.foldl shutdownStep st).response_queues s ≠ some q) ∧
    alGet? (l.foldl shutdownStep st).queues q = alGet? st.queues q ∧
    (l.foldl shutdownStep st).nextQueueId = st.nextQueueId := by
  induction l generalizing st with
  | nil => exact ⟨h₁, rfl, rfl⟩
  | cons x xs ih =>
      obtain ⟨g₁, g₂, g₃⟩ := qfree_shutdownStep st q x h₁
      obtain ⟨f₁, f₂, f₃⟩ := ih (shutdownStep st x) g₁
      exact ⟨f₁, f₂.trans g₂, f₃.trans g₃⟩

/-- Every server event keeps a queue id `q` that no session maps to (and
that is below the allocation counter) unmapped, below the counter, and
with unchanged contents: fresh allocations use the counter, posts go to
mapped queues only, and teardowns only unmap. -/
theorem qfree_step (st : SState) (q : Nat) (e : Event)
    (h₁ : ∀ s, alGet? st.response_queues s ≠ some q)
    (h₂ : q < st.nextQueueId) :
    (∀ s, alGet? (step st e).response_queues s ≠ some q) ∧
    q < (step st e).nextQueueId ∧
    alGet? (step st e).queues q = alGet? st.queues q := by
  cases e with
  | connect sid =>
      refine ⟨?_, by simp only [step]; omega, ?_⟩
      · intro s
        by_cases hs : s = sid
        · subst hs
          simp only [step, alGet?_alSet_self]
          intro hh
          have : st.nextQueueId = q := by injection hh
          omega
        · simp only [step, alGet?_alSet_ne _ _ _ _ hs]
          exact h₁ s
      · simp only [step]
        exact alGet?_alSet_ne _ _ _ _ (show q ≠ st.nextQueueId by omega)
  | recv sid m =>
      cases m with
      | malformed s' =>
          exact ⟨alDel_preserves_notval _ _ _ h₁, by simp only [step]; omega, rfl⟩
      | decoded j =>
          cases hq : alGet? st.response_queues sid with
          | none => exact ⟨by simp only [step, hq]; exact h₁, by simp only [step, hq]; omega,
              by simp only [step, hq]⟩
          | some q'' =>
              have hne : q ≠ q'' := fun hh => h₁ sid (hh ▸ hq)
              refine ⟨?_, ?_, ?_⟩ <;> simp only [step, hq]
              · exact h₁
              · omega
              · exact alGet?_alSet_ne _ _ _ _ hne
  | disconnect sid =>
      exact ⟨alDel_preserves_notval _ _ _ h₁, by simp only [step]; omega, rfl⟩
  | shutdown =>
      obtain ⟨f₁, f₂, f₃⟩ := qfree_shutdownFold (keys st.active_connections) st q h₁
      refine ⟨f₁, ?_, f₂⟩
      show q < ((keys st.active_connections).foldl shutdownStep st).nextQueueId
      rw [f₃]
      exact h₂

/-- Every action (server event or isolated exchange call) keeps an
unmapped, below-counter queue id unmapped, below the counter, and with
unchanged contents. An exchange only pops from the session's mapped queue
or creates a queue at the fresh counter value, never touching `q`. -/
theorem qfree_act (st : SState) (q : Nat) (a : Action)
    (h₁ : ∀ s, alGet? st.response_queues s ≠ some q)
    (h₂ : q < st.nextQueueId) :
    (∀ s, alGet? (actStep st a).response_queues s ≠ some q) ∧
    q < (actStep st a).nextQueueId ∧
    alGet? (actStep st a).queues q = alGet? st.queues q := by
  cases a with
  | ev e => exact qfree_step st q e h₁ h₂
  | exchange sid message sendOk =>
      obtain ⟨ha, hrq, hqs, hnext⟩ := send_frame st sid message sendOk
      refine ⟨?_, ?_, ?_⟩
      · simp only [actStep]
        rcases hrq with hrq | ⟨-, -, hrq⟩
        · rw [hrq]; exact h₁
        · rw [hrq]
          intro s
          by_cases hs : s = sid
          · subst hs
            rw [alGet?_alSet_self]
            intro hh
            have : st.nextQueueId = q := by injection hh
            omega
          · rw [alGet?_alSet_ne _ _ _ _ hs]
            exact h₁ s
      · simp only [actStep]
        rcases hnext with hnext | ⟨-, hnext⟩ <;> rw [hnext] <;> omega
      · simp only [actStep]
        rcases hqs with hqs | ⟨-, hqs⟩ | ⟨q'', item, rest, hq'', hcons, hqs⟩
        · rw [hqs]
        · rw [hqs]
          exact alGet?_alSet_ne _ _ _ _ (show q ≠ st.nextQueueId by omega)
        · have hne : q ≠ q'' := fun hh => h₁ sid (hh ▸ hq'')
          rw [hqs]
          exact alGet?_alSet_ne _ _ _ _ hne

/-- A whole action run keeps an unmapped, below-counter queue id unmapped,
below the counter, and with unchanged contents. -/
theorem qfree_runActs (acts : List Action) (st : SState) (q : Nat)
    (h₁ : ∀ s, alGet? st.response_queues s ≠ some q)
    (h₂ : q < st.nextQueueId) :
    (∀ s, alGet? (runActs st acts).response_queues s ≠ some q) ∧
    q < (runActs st acts).nextQueueId ∧
    alGet? (runActs st acts).queues q = alGet? st.queues q := by
  induction acts generalizing st with
  | nil => exact ⟨h₁, h₂, rfl⟩
  | cons a rest ih =>
      obtain ⟨g₁, g₂, g₃⟩ := qfree_act st q a h₁ h₂
      obtain ⟨f₁, f₂, f₃⟩ := ih (actStep st a) g₁ g₂
      exact ⟨f₁, f₂, f₃.trans g₃⟩

/-- A waiter suspended on a queue that is empty (or unallocated), that no
session maps to, and whose id is below the allocation counter, times out:
no event of any trace can ever make that queue non-empty. -/
theorem waitLoop_timeout_of_qfree (trace : List (Nat × Event)) (st : SState) (q : Nat)
    (h₁ : ∀ s, alGet? st.response_queues s ≠ some q)
    (h₂ : q < st.nextQueueId)
    (hq : alGet? st.queues q = some [] ∨ alGet? st.queues q = none) :
    (waitLoop st q trace).outcome = Outcome.timeoutError timeoutMsg ∧
    (waitLoop st q trace).parsed = [] := by
  induction trace generalizing st with
  | nil => rcases hq with hq | hq <;> simp [waitLoop, tryTake, hq]
  | cons te rest ih =>
      obtain ⟨t, e⟩ := te
      have htt : tryTake st q = none := by
        rcases hq with hq | hq <;> simp [tryTake, hq]
      by_cases ht : t < 60
      · obtain ⟨g₁, g₂, g₃⟩ := qfree_step st q e h₁ h₂
        have hq' : alGet? (step st e).queues q = some [] ∨
            alGet? (step st e).queues q = none := by
          rw [g₃]; exact hq
        simpa [waitLoop, htt, ht] using ih (step st e) g₁ g₂ hq'
      · simp [waitLoop, htt, ht]

/-- Claim C9: accepting a new connection for a session that already has a
mailbox replaces the mailbox with a fresh empty queue (under a distinct
id), the old queue's contents are frozen — no later run of events and
exchange calls ever consumes from it or adds to it, so unclaimed replies
in it are discarded — and a waiter left suspended on the (empty) old
queue across the reconnect can never receive any reply: it times out no
matter what is posted afterwards. -/
theorem claim_C9 (st : SState) (sid : String) (q : Nat)
    (h₁ : alGet? st.response_queues sid = some q)
    (huniq : ∀ s, alGet? st.response_queues s = some q → s = sid)
    (h₂ : q < st.nextQueueId) :
    alGet? (step st (Event.connect sid)).response_queues sid = some st.nextQueueId ∧
    st.nextQueueId ≠ q ∧
    alGet? (step st (Event.connect sid)).queues st.nextQueueId = some [] ∧
    (∀ acts : List Action,
        alGet? (runActs (step st (Event.connect sid)) acts).queues q =
          alGet? st.queues q) ∧
    (alGet? st.queues q = some [] →
      ∀ trace : List (Nat × Event),
        (waitLoop (step st (Event.connect sid)) q trace).outcome =
            Outcome.timeoutError timeoutMsg ∧
          (waitLoop (step st (Event.connect sid)) q trace).parsed = []) := by
  have hfree : ∀ s, alGet? (step st (Event.connect sid)).response_queues s ≠ some q := by
    intro s
    by_cases hs : s = sid
    · subst hs
      simp only [step, alGet?_alSet_self]
      intro hh
      have : st.nextQueueId = q := by injection hh
      omega
    · simp only [step, alGet?_alSet_ne _ _ _ _ hs]
      intro hh
      exact hs (huniq s hh)
  have hnext : q < (step st (Event.connect sid)).nextQueueId := by
    simp only [step]
    omega
  have hcont : alGet? (step st (Event.connect sid)).queues q = alGet? st.queues q := by
    simp only [step]
    exact alGet?_alSet_ne _ _ _ _ (show q ≠ st.nextQueueId by omega)
  refine ⟨?_, by omega, ?_, ?_, ?_⟩
  · simp only [step]
    exact alGet?_alSet_self _ _ _
  · simp only [step]
    exact alGet?_alSet_self _ _ _
  · intro acts
    exact ((qfree_runActs acts _ q hfree hnext).2.2).trans hcont
  · intro hq trace
    exact waitLoop_timeout_of_qfree trace _ q hfree hnext (Or.inl (hcont.trans hq))

/-- Witness for C9: `"s1"` connects twice; after the reconnect the session
maps to the fresh queue 1, the old queue 0 is frozen (a reply posted after
the reconnect does not reach it), and a waiter suspended on queue 0 across
the reconnect times out even though a reply is posted to the session. -/
theorem claim_C9_witness :
    alGet? (step (step initState (Event.connect "s1"))
        (Event.connect "s1")).response_queues "s1" = some 1 ∧
    (1 : Nat) ≠ 0 ∧
    alGet? (step (step initState (Event.connect "s1")) (Event.connect "s1")).queues 1 =
      some [] ∧
    alGet? (runActs (step (step initState (Event.connect "s1")) (Event.connect "s1"))
        [Action.ev (Event.recv "s1" (Msg.decoded (Json.bool true)))]).queues 0 =
      alGet? (step initState (Event.connect "s1")).queues 0 ∧
    (waitLoop (step (step initState (Event.connect "s1")) (Event.connect "s1")) 0
        [(2, Event.recv "s1" (Msg.decoded (Json.bool true)))]).outcome =
      Outcome.timeoutError timeoutMsg :=
  have h := claim_C9 (step initState (Event.connect "s1")) "s1" 0 rfl
    (by
      intro s hh
      simp only [step, initState] at hh
      rw [show alSet ([] : List (String × Nat)) "s1" 0 = [("s1", 0)] from rfl] at hh
      simp [alGet?] at hh
      exact hh.symm)
    (by decide)
  ⟨h.1, h.2.1, h.2.2.1, h.2.2.2.1 _, (h.2.2.2.2 rfl _).1⟩

end Marketrix
